import Mathlib

/-!
# Verification of django-fitbit (fitapp) against its specification

Shallow embedding of the `fitapp` Django application: the data model from
`src/fitapp/models.py`, and the background task / webhook / retrieval-view
behaviour.  The task module (`fitapp/tasks.py`) and the views module
(`fitapp/views.py`) are not part of the available sources (only their tests
in `src/fitapp/tests/test_retrieval.py` are), so those operations are
modelled from the specification's description, constrained by the behaviour
the tests assert.
-/

namespace Fitapp

/-! ## Data model (`src/fitapp/models.py`) -/

/-- Embedding of the Django model `UserFitbit` from `src/fitapp/models.py`:
`user` is a `OneToOneField(User)` (we model the user by its primary key),
`fitbit_user` a `CharField`, `auth_token` and `auth_secret` `TextField`s. -/
structure UserFitbit where
  user : Nat
  fitbit_user : String
  auth_token : String
  auth_secret : String
deriving DecidableEq, Repr

/-- Embedding of `UserFitbit.get_user_data` from `src/fitapp/models.py`:
returns the dictionary `{'user_key': auth_token, 'user_secret': auth_secret,
'user_id': fitbit_user}`, modelled as an association list in the order the
source writes the keys.  The embedding is a pure function: it reads the
record's fields and touches no other state. -/
def UserFitbit.get_user_data (u : UserFitbit) : List (String × String) :=
  [("user_key", u.auth_token),
   ("user_secret", u.auth_secret),
   ("user_id", u.fitbit_user)]

/-- The class names defined in the module `src/fitapp/models.py` as given in
the sources: the file defines exactly one model class, `UserFitbit`. -/
def fitappModelsClasses : List String := ["UserFitbit"]

/-- The names that `src/fitapp/tests/test_retrieval.py` (line 16) imports
from the module `fitapp.models`:
`from fitapp.models import UserFitbit, TimeSeriesData, TimeSeriesDataType`. -/
def testRetrievalModelImports : List String :=
  ["UserFitbit", "TimeSeriesData", "TimeSeriesDataType"]

/-! ## The `UserFitbit` table and its operations

Django's `OneToOneField(User)` puts a unique constraint on the `user`
column: at most one `UserFitbit` row per user.  We model the table as a
list of rows and the operations the application performs on it — creating
a credentials record (refused by the unique constraint when a row for the
same user already exists, mirroring the database's integrity error) and
deleting a user's record (`self.fbuser.delete()` in the tests, and the
view's deletion of invalid credentials). -/

/-- At most one credentials row per user: any two rows of the table with
the same `user` key are the same row. -/
def oneToOneUser (db : List UserFitbit) : Prop :=
  ∀ a ∈ db, ∀ b ∈ db, a.user = b.user → a = b

instance (db : List UserFitbit) : Decidable (oneToOneUser db) := by
  unfold oneToOneUser; infer_instance

/-- Insert a credentials row; the unique constraint on `user` makes the
insert fail (`none`) when a row for that user already exists. -/
def insertUserFitbit (db : List UserFitbit) (r : UserFitbit) :
    Option (List UserFitbit) :=
  if db.any (fun x => x.user == r.user) then none else some (r :: db)

/-- Delete every credentials row of the given user (Django `delete()` on
the queryset filtered by user). -/
def deleteUserFitbit (db : List UserFitbit) (uid : Nat) : List UserFitbit :=
  db.filter (fun x => x.user ≠ uid)

/-- The operations the application performs on the `UserFitbit` table. -/
inductive DbOp where
  | create (r : UserFitbit)
  | delete (uid : Nat)
deriving Repr

/-- Apply an operation to the table; a refused insert leaves the table
unchanged (the database rejects the row). -/
def applyDbOp (db : List UserFitbit) : DbOp → List UserFitbit
  | .create r => (insertUserFitbit db r).getD db
  | .delete uid => deleteUserFitbit db uid

/-! ## Time-series data and the background refresh task

`fitapp/tasks.py` is not among the available sources; the task
`get_time_series_data` is modelled from the specification: "a Celery task
performing a cache-based soft-lock (\"add if absent\" semantics) before
calling the API and writing results back to the database, with retry-after
honored on rate-limit errors", keyed and constrained by the tests in
`src/fitapp/tests/test_retrieval.py`. -/

/-- A time-series resource type (Django model `TimeSeriesDataType`,
referenced by the tests; a category integer such as
`TimeSeriesDataType.activities` and a resource name such as `steps`). -/
structure TimeSeriesDataType where
  category : Nat
  resource : String
deriving DecidableEq, Repr

/-- A stored time-series row (the `TimeSeriesData` model the tests use:
a user, a resource type, a date and a value). -/
structure TimeSeriesData where
  user : Nat
  category : Nat
  resource : String
  date : String
  value : Int
deriving DecidableEq, Repr

/-- The Fitbit client exceptions the tests exercise
(`fitbit.exceptions`); `HTTPTooManyRequests` carries `retry_after_secs`. -/
inductive FitbitError where
  | HTTPBadRequest
  | HTTPUnauthorized
  | HTTPForbidden
  | HTTPNotFound
  | HTTPConflict
  | HTTPTooManyRequests (retry_after_secs : Nat)
  | HTTPServerError
deriving DecidableEq, Repr

/-- Outcome of one call to `utils.get_fitbit_data` (mocked in the tests):
either a list of values fetched from the API, or a raised client error. -/
inductive ApiResult where
  | ok (values : List Int)
  | err (e : FitbitError)
deriving DecidableEq, Repr

/-- The Django cache, modelled as the set of present keys (the task only
uses `cache.add` and `cache.delete` on lock keys). -/
structure Cache where
  keys : List String
deriving DecidableEq, Repr

/-- `cache.add` — add-if-absent: returns the new cache and `true` when the
key was absent and has been added, the unchanged cache and `false` when the
key was already present. -/
def Cache.add (c : Cache) (k : String) : Cache × Bool :=
  if k ∈ c.keys then (c, false) else (⟨k :: c.keys⟩, true)

/-- `cache.delete`: remove a key. -/
def Cache.delete (c : Cache) (k : String) : Cache :=
  ⟨c.keys.filter (fun x => x ≠ k)⟩

/-- The soft-lock cache key the task uses, as asserted by the tests:
`fitapp.get_time_series_data-lock-<category>-<resource>-<date>`. -/
def lockKey (category : Nat) (resource date : String) : String :=
  "fitapp.get_time_series_data-lock-" ++ toString category ++ "-" ++
    resource ++ "-" ++ date

/-- The state the background task reads and writes: the cache, the
time-series table, the number of Fitbit API fetches performed
(`get_fitbit_data.call_count` in the tests) and the recorded
`task.retry` calls with their `countdown` argument. -/
structure TaskState where
  cache : Cache
  tsdata : List TimeSeriesData
  apiCalls : Nat
  retries : List (FitbitError × Nat)
deriving DecidableEq, Repr

/-- Modelled from the spec: `fitapp/tasks.py` (the Celery task
`get_time_series_data`) is not under `src/`.  Per the spec it performs a
cache-based soft-lock ("add if absent") before calling the API and writing
results back to the database, honoring retry-after on rate-limit errors:
if `cache.add` reports the lock key already present the task stops; else
it calls `utils.get_fitbit_data` and, on success, stores one
`TimeSeriesData` row per returned value for the user/resource/date and
deletes the lock, on `HTTPTooManyRequests` records a retry with
`countdown = retry_after_secs` and deletes the lock, and on other errors
just deletes the lock. -/
def get_time_series_data (api : ApiResult) (userId : Nat)
    (t : TimeSeriesDataType) (date : String) (s : TaskState) : TaskState :=
  let k := lockKey t.category t.resource date
  match s.cache.add k with
  | (c1, true) =>
    let s1 : TaskState := { s with cache := c1, apiCalls := s.apiCalls + 1 }
    match api with
    | .ok values =>
      let newRows := values.map
        (fun v => TimeSeriesData.mk userId t.category t.resource date v)
      let kept := s1.tsdata.filter (fun r =>
        ¬(r.user = userId ∧ r.category = t.category ∧
          r.resource = t.resource ∧ r.date = date))
      { s1 with tsdata := newRows ++ kept, cache := s1.cache.delete k }
    | .err (.HTTPTooManyRequests ras) =>
      { s1 with retries := (FitbitError.HTTPTooManyRequests ras, ras) :: s1.retries,
                cache := s1.cache.delete k }
    | .err _ => { s1 with cache := s1.cache.delete k }
  | (_, false) => s

/-- Modelled from the spec: the webhook update endpoint (`fitapp/views.py`
is not under `src/`).  Per the spec it "fans out one task per subscribed
resource type": for a notification naming a category it runs
`get_time_series_data` once for each subscribed resource type of that
category. -/
def fitbit_update (api : ApiResult) (userId : Nat)
    (subscribedTypes : List TimeSeriesDataType) (category : Nat)
    (date : String) (s : TaskState) : TaskState :=
  (subscribedTypes.filter (fun t => t.category = category)).foldl
    (fun st t => get_time_series_data api userId t date st) s

/-! ## The data-retrieval views

`fitapp/views.py` is not among the available sources either; the retrieval
view is modelled from the specification ("Django class-based views
translating query-string parameters into calls against a vendored API
client library", "the HTTP status code maps 1:1 to an application-level
meta status code") with the concrete behaviour the tests in
`src/fitapp/tests/test_retrieval.py` assert. -/

/-- The application-level meta status code the retrieval views return for a
Fitbit HTTP error, exactly as the tests assert it:
`HTTPUnauthorized ↦ 103`, `HTTPForbidden ↦ 103` (invalid credentials),
`HTTPConflict ↦ 105` (rate limited), `HTTPServerError ↦ 106` (Fitbit
error); the tests pin no view-level meta code for the other errors
(`none`). -/
def metaForError : FitbitError → Option Nat
  | .HTTPUnauthorized => some 103
  | .HTTPForbidden => some 103
  | .HTTPConflict => some 105
  | .HTTPServerError => some 106
  | _ => none

/-- Modelled from the spec: the data-retrieval view (`fitapp/views.py` is
not under `src/`).  Behaviour as the spec and the view tests describe it,
on a GET request: meta 101 when the requesting session is not an
authenticated active user (credentials untouched), meta 102 when the user
has no `UserFitbit` record, meta 104 when the query parameters are invalid,
meta 100 with the fetched values on success, and on a Fitbit error the meta
code of `metaForError` — deleting the stored credentials exactly in the
invalid-credentials case (meta 103).  Returns (meta status code, objects)
and the `UserFitbit` table after the request. -/
def fitbit_data_view (authenticatedActive : Bool) (userId : Nat)
    (paramsValid : Bool) (api : ApiResult) (db : List UserFitbit) :
    (Nat × List Int) × List UserFitbit :=
  if authenticatedActive = false then ((101, []), db)
  else if db.any (fun u => u.user == userId) = false then ((102, []), db)
  else if paramsValid = false then ((104, []), db)
  else
    match api with
    | .ok values => ((100, values), db)
    | .err e =>
      let meta := (metaForError e).getD 106
      ((meta, []), if meta = 103 then deleteUserFitbit db userId else db)

/-- The HTTP methods the view tests exercise. -/
inductive HttpMethod where
  | GET
  | POST
  | HEAD
  | OPTIONS
  | PUT
  | DELETE
deriving DecidableEq, Repr

/-- Modelled from the spec: HTTP dispatch of the retrieval view
(`fitapp/views.py` is not under `src/`).  A GET request is answered with
HTTP status 200 and the JSON body produced by `fitbit_data_view`; any
other method is answered with HTTP status 405 and no body, leaving the
database untouched. -/
def fitbit_data_dispatch (method : HttpMethod) (authenticatedActive : Bool)
    (userId : Nat) (paramsValid : Bool) (api : ApiResult)
    (db : List UserFitbit) : (Nat × Option (Nat × List Int)) × List UserFitbit :=
  match method with
  | .GET =>
    let r := fitbit_data_view authenticatedActive userId paramsValid api db
    ((200, some r.1), r.2)
  | _ => ((405, none), db)

end Fitapp

open Fitapp

/-! ## Claims about the data model -/

/-- C10: for every `UserFitbit` record, `get_user_data` returns a dictionary
with exactly the three keys `user_key`, `user_secret`, `user_id`, bound to
`auth_token`, `auth_secret`, `fitbit_user` respectively; the embedding is a
pure function, so no state is modified. -/
theorem get_user_data_spec (u : UserFitbit) :
    u.get_user_data =
      [("user_key", u.auth_token),
       ("user_secret", u.auth_secret),
       ("user_id", u.fitbit_user)] ∧
    u.get_user_data.map Prod.fst = ["user_key", "user_secret", "user_id"] :=
  ⟨rfl, rfl⟩

/-- C5: the claim says the models module defines a `TimeSeriesData` model
alongside the credentials model; in the sources `src/fitapp/models.py`
defines only `UserFitbit`, yet the repository's own test module imports
`TimeSeriesData` (and `TimeSeriesDataType`) from `fitapp.models` — the code
contradicts its own tests. -/
theorem timeSeriesData_missing_from_models :
    "TimeSeriesData" ∉ fitappModelsClasses ∧
    "TimeSeriesData" ∈ testRetrievalModelImports ∧
    fitappModelsClasses = ["UserFitbit"] := by
  refine ⟨?_, ?_, rfl⟩ <;> decide

/-- C7: the `user` field of `UserFitbit` is a one-to-one relation, so at
most one credentials record exists per user, and every table operation
(create under the unique constraint, delete) preserves this invariant. -/
theorem oneToOneUser_preserved (db : List UserFitbit) (op : DbOp)
    (h : oneToOneUser db) : oneToOneUser (applyDbOp db op) := by
  cases op with
  | create r =>
    simp only [applyDbOp, insertUserFitbit]
    by_cases hc : db.any (fun x => x.user == r.user)
    · simpa [hc] using h
    · simp only [hc, if_neg, Bool.false_eq_true, not_false_eq_true,
        Option.getD_some]
      intro a ha b hb hab
      simp only [List.mem_cons] at ha hb
      rcases ha with rfl | ha <;> rcases hb with rfl | hb
      · rfl
      · exact absurd (List.any_eq_true.mpr ⟨b, hb, by simp [hab.symm]⟩) hc
      · exact absurd (List.any_eq_true.mpr ⟨a, ha, by simp [hab]⟩) hc
      · exact h a ha b hb hab
  | delete uid =>
    intro a ha b hb hab
    exact h a (List.mem_of_mem_filter ha) b (List.mem_of_mem_filter hb) hab

/-- Witness for C7: the invariant holds of a concrete one-row table and is
preserved by a concrete create operation. -/
theorem oneToOneUser_preserved_witness :
    oneToOneUser [⟨1, "fb1", "t1", "s1"⟩] ∧
    oneToOneUser (applyDbOp [⟨1, "fb1", "t1", "s1"⟩]
      (DbOp.create ⟨2, "fb2", "t2", "s2"⟩)) :=
  ⟨by decide,
   oneToOneUser_preserved [⟨1, "fb1", "t1", "s1"⟩]
     (DbOp.create ⟨2, "fb2", "t2", "s2"⟩) (by decide)⟩

/-! ## Helper lemmas about the background task -/

/-- When the soft-lock key is already in the cache, the task is a no-op on
the whole state. -/
theorem task_locked_eq (api : ApiResult) (userId : Nat)
    (t : TimeSeriesDataType) (date : String) (s : TaskState)
    (h : lockKey t.category t.resource date ∈ s.cache.keys) :
    get_time_series_data api userId t date s = s := by
  simp [get_time_series_data, Cache.add, h]

/-- When the soft-lock is acquired, the task performs exactly one Fitbit
API fetch. -/
theorem task_unlocked_apiCalls (api : ApiResult) (userId : Nat)
    (t : TimeSeriesDataType) (date : String) (s : TaskState)
    (h : lockKey t.category t.resource date ∉ s.cache.keys) :
    (get_time_series_data api userId t date s).apiCalls = s.apiCalls + 1 := by
  rcases api with values | e
  · simp [get_time_series_data, Cache.add, h]
  · cases e <;> simp [get_time_series_data, Cache.add, h]

/-- A run of the task never leaves a new key in the cache: afterwards the
cache keys are among the keys present before. -/
theorem task_cache_sub (api : ApiResult) (userId : Nat)
    (t : TimeSeriesDataType) (date : String) (s : TaskState) (k : String)
    (h : k ∈ (get_time_series_data api userId t date s).cache.keys) :
    k ∈ s.cache.keys := by
  by_cases hl : lockKey t.category t.resource date ∈ s.cache.keys
  · rwa [task_locked_eq api userId t date s hl] at h
  · rcases api with values | e
    · simp [get_time_series_data, Cache.add, hl, Cache.delete,
        List.mem_filter] at h
      tauto
    · cases e <;>
      · simp [get_time_series_data, Cache.add, hl, Cache.delete,
          List.mem_filter] at h
        tauto

/-- The task on a successful fetch of values `vs` preserves the property
"every stored row for this user and date has its value among `vs`",
specialised to a single fetched value. -/
theorem task_value_prop (v : Int) (userId : Nat) (t : TimeSeriesDataType)
    (date : String) (s : TaskState)
    (hP : ∀ r ∈ s.tsdata, r.user = userId → r.date = date → r.value = v) :
    ∀ r ∈ (get_time_series_data (.ok [v]) userId t date s).tsdata,
      r.user = userId → r.date = date → r.value = v := by
  by_cases hl : lockKey t.category t.resource date ∈ s.cache.keys
  · rw [task_locked_eq _ userId t date s hl]; exact hP
  · intro r hr
    simp [get_time_series_data, Cache.add, hl, List.mem_filter] at hr
    rcases hr with rfl | ⟨hr, _⟩
    · intro _ _; rfl
    · exact hP r hr

/-- Fan-out step: folding the task over a list of resource types leaves no
new key in the cache. -/
theorem foldl_task_cache_sub (api : ApiResult) (userId : Nat) (date : String)
    (ts : List TimeSeriesDataType) :
    ∀ (s : TaskState) (k : String),
      k ∈ ((ts.foldl (fun st t => get_time_series_data api userId t date st)
        s).cache.keys) →
      k ∈ s.cache.keys := by
  induction ts with
  | nil => intro s k h; exact h
  | cons t ts ih =>
    intro s k h
    rw [List.foldl_cons] at h
    exact task_cache_sub api userId t date s k (ih _ k h)

/-- Fan-out step: when none of the lock keys are held, folding the task
over a list of resource types performs one API fetch per type. -/
theorem foldl_task_apiCalls (api : ApiResult) (userId : Nat) (date : String)
    (ts : List TimeSeriesDataType) :
    ∀ s : TaskState,
      (∀ t ∈ ts, lockKey t.category t.resource date ∉ s.cache.keys) →
      (ts.foldl (fun st t => get_time_series_data api userId t date st)
        s).apiCalls = s.apiCalls + ts.length := by
  induction ts with
  | nil => intro s _; simp
  | cons t ts ih =>
    intro s hl
    rw [List.foldl_cons]
    have h1 : lockKey t.category t.resource date ∉ s.cache.keys :=
      hl t (List.mem_cons_self t ts)
    have h2 : ∀ u ∈ ts, lockKey u.category u.resource date ∉
        (get_time_series_data api userId t date s).cache.keys := by
      intro u hu hmem
      exact hl u (List.mem_cons_of_mem t hu)
        (task_cache_sub api userId t date s _ hmem)
    rw [ih _ h2, task_unlocked_apiCalls api userId t date s h1]
    simp [List.length_cons]
    omega

/-- Fan-out step: the stored-value property is preserved across the whole
fold. -/
theorem foldl_task_value_prop (v : Int) (userId : Nat) (date : String)
    (ts : List TimeSeriesDataType) :
    ∀ s : TaskState,
      (∀ r ∈ s.tsdata, r.user = userId → r.date = date → r.value = v) →
      ∀ r ∈ (ts.foldl
          (fun st t => get_time_series_data (.ok [v]) userId t date st)
          s).tsdata,
        r.user = userId → r.date = date → r.value = v := by
  induction ts with
  | nil => intro s hP; exact hP
  | cons t ts ih =>
    intro s hP
    rw [List.foldl_cons]
    exact ih _ (task_value_prop v userId t date s hP)

/-! ## Claims about the background task and the webhook fan-out -/

/-- C1: when the cache-based soft-lock cannot be acquired (the lock key is
already present, so add-if-absent reports failure), the task makes no
Fitbit API call and writes no time-series rows: the whole state — cache,
database, call count, retries — is unchanged. -/
theorem task_soft_lock_no_effect (api : ApiResult) (userId : Nat)
    (t : TimeSeriesDataType) (date : String) (s : TaskState)
    (h : lockKey t.category t.resource date ∈ s.cache.keys) :
    get_time_series_data api userId t date s = s ∧
    (get_time_series_data api userId t date s).apiCalls = s.apiCalls ∧
    (get_time_series_data api userId t date s).tsdata = s.tsdata :=
  ⟨task_locked_eq api userId t date s h,
   by rw [task_locked_eq api userId t date s h],
   by rw [task_locked_eq api userId t date s h]⟩

/-- Witness for C1 at a concrete locked state. -/
theorem task_soft_lock_no_effect_witness :
    get_time_series_data (ApiResult.ok [10]) 1 ⟨0, "steps"⟩ "2013-05-02"
        ⟨⟨[lockKey 0 "steps" "2013-05-02"]⟩, [], 0, []⟩ =
      ⟨⟨[lockKey 0 "steps" "2013-05-02"]⟩, [], 0, []⟩ ∧
    (get_time_series_data (ApiResult.ok [10]) 1 ⟨0, "steps"⟩ "2013-05-02"
        ⟨⟨[lockKey 0 "steps" "2013-05-02"]⟩, [], 0, []⟩).apiCalls = 0 ∧
    (get_time_series_data (ApiResult.ok [10]) 1 ⟨0, "steps"⟩ "2013-05-02"
        ⟨⟨[lockKey 0 "steps" "2013-05-02"]⟩, [], 0, []⟩).tsdata = [] :=
  task_soft_lock_no_effect (ApiResult.ok [10]) 1 ⟨0, "steps"⟩ "2013-05-02"
    ⟨⟨[lockKey 0 "steps" "2013-05-02"]⟩, [], 0, []⟩
    (List.mem_singleton.mpr rfl)

/-- C2: when the Fitbit API raises `HTTPTooManyRequests` carrying
`retry_after_secs = ras`, the task re-schedules itself with a countdown of
exactly `ras` seconds and writes no time-series rows. -/
theorem task_rate_limit_retry (userId : Nat) (t : TimeSeriesDataType)
    (date : String) (s : TaskState) (ras : Nat)
    (h : lockKey t.category t.resource date ∉ s.cache.keys) :
    (get_time_series_data (.err (.HTTPTooManyRequests ras)) userId t date
        s).retries =
      (FitbitError.HTTPTooManyRequests ras, ras) :: s.retries ∧
    (get_time_series_data (.err (.HTTPTooManyRequests ras)) userId t date
        s).tsdata = s.tsdata := by
  constructor <;> simp [get_time_series_data, Cache.add, h]

/-- Witness for C2 at a concrete unlocked state with
`retry_after_secs = 21` (the value of the test). -/
theorem task_rate_limit_retry_witness :
    (get_time_series_data
        (.err (.HTTPTooManyRequests 21)) 1 ⟨0, "steps"⟩ "2013-05-02"
        ⟨⟨[]⟩, [], 0, []⟩).retries =
      [(FitbitError.HTTPTooManyRequests 21, 21)] ∧
    (get_time_series_data
        (.err (.HTTPTooManyRequests 21)) 1 ⟨0, "steps"⟩ "2013-05-02"
        ⟨⟨[]⟩, [], 0, []⟩).tsdata = [] :=
  task_rate_limit_retry 1 ⟨0, "steps"⟩ "2013-05-02" ⟨⟨[]⟩, [], 0, []⟩ 21
    (List.not_mem_nil _)

/-- C3: a subscription-update notification naming a category triggers
exactly one Fitbit data fetch per subscribed resource type of that
category (when no soft lock is held). -/
theorem subscription_update_fanout (api : ApiResult) (userId : Nat)
    (types : List TimeSeriesDataType) (category : Nat) (date : String)
    (s : TaskState)
    (hlocks : ∀ t ∈ types.filter (fun t => t.category = category),
        lockKey t.category t.resource date ∉ s.cache.keys) :
    (fitbit_update api userId types category date s).apiCalls =
      s.apiCalls + (types.filter (fun t => t.category = category)).length := by
  unfold fitbit_update
  exact foldl_task_apiCalls api userId date _ s hlocks

/-- Witness for C3: three subscribed types, two of the notified category,
starting from an empty cache — exactly two fetches. -/
theorem subscription_update_fanout_witness :
    (fitbit_update (ApiResult.ok [10]) 1
        [⟨0, "steps"⟩, ⟨0, "floors"⟩, ⟨1, "timeInBed"⟩] 0 "2013-05-02"
        ⟨⟨[]⟩, [], 0, []⟩).apiCalls =
      0 + (([⟨0, "steps"⟩, ⟨0, "floors"⟩, ⟨1, "timeInBed"⟩] :
          List TimeSeriesDataType).filter
        (fun t => t.category = 0)).length :=
  subscription_update_fanout (ApiResult.ok [10]) 1
    [⟨0, "steps"⟩, ⟨0, "floors"⟩, ⟨1, "timeInBed"⟩] 0 "2013-05-02"
    ⟨⟨[]⟩, [], 0, []⟩ (by intro t _ hmem; exact (List.not_mem_nil _) hmem)

/-- C6: a successful background refresh writes the fetched value back —
afterwards every stored time-series row for that user and date holds the
value the Fitbit API returned, and the soft-lock cache key of every
refreshed resource is gone from the cache. -/
theorem subscription_update_success (v : Int) (userId : Nat)
    (types : List TimeSeriesDataType) (category : Nat) (date : String)
    (s : TaskState)
    (hrows : ∀ r ∈ s.tsdata, ¬(r.user = userId ∧ r.date = date))
    (hlocks : ∀ t ∈ types, lockKey t.category t.resource date ∉ s.cache.keys) :
    (∀ r ∈ (fitbit_update (.ok [v]) userId types category date s).tsdata,
        r.user = userId → r.date = date → r.value = v) ∧
    ∀ t ∈ types,
      lockKey t.category t.resource date ∉
        (fitbit_update (.ok [v]) userId types category date s).cache.keys := by
  unfold fitbit_update
  constructor
  · apply foldl_task_value_prop
    intro r hr h1 h2
    exact absurd ⟨h1, h2⟩ (hrows r hr)
  · intro t ht hmem
    exact hlocks t ht (foldl_task_cache_sub _ _ _ _ _ _ hmem)

/-- Witness for C6 at a concrete fresh state: one subscribed type, value 10
fetched. -/
theorem subscription_update_success_witness :
    (∀ r ∈ (fitbit_update (.ok [10]) 1 [⟨0, "steps"⟩] 0 "2013-05-02"
        ⟨⟨[]⟩, [], 0, []⟩).tsdata,
      r.user = 1 → r.date = "2013-05-02" → r.value = 10) ∧
    ∀ t ∈ ([⟨0, "steps"⟩] : List TimeSeriesDataType),
      lockKey t.category t.resource "2013-05-02" ∉
        (fitbit_update (.ok [10]) 1 [⟨0, "steps"⟩] 0 "2013-05-02"
          ⟨⟨[]⟩, [], 0, []⟩).cache.keys :=
  subscription_update_success 10 1 [⟨0, "steps"⟩] 0 "2013-05-02"
    ⟨⟨[]⟩, [], 0, []⟩ (by intro r hr; exact absurd hr (List.not_mem_nil _))
    (by intro t _ hmem; exact (List.not_mem_nil _) hmem)

/-! ## Claims about the retrieval views -/

/-- C4, counterexample: the error-to-meta mapping the view tests assert is
not injective — `HTTPUnauthorized` and `HTTPForbidden` are distinct HTTP
error codes yet both yield meta status 103. -/
theorem metaForError_collision :
    metaForError FitbitError.HTTPUnauthorized =
      metaForError FitbitError.HTTPForbidden ∧
    FitbitError.HTTPUnauthorized ≠ FitbitError.HTTPForbidden := by
  constructor
  · rfl
  · intro h
    exact FitbitError.noConfusion h

/-- C4, amended: the mapping is a function but not 1:1 — its only collision
is the invalid-credentials pair: whenever two errors with a defined meta
code get the same meta code, either they are the same error or both are
`HTTPUnauthorized`/`HTTPForbidden` mapping to 103; in particular
`HTTPConflict ↦ 105` and `HTTPServerError ↦ 106` are distinct from each
other and from 103. -/
theorem metaForError_amended (e1 e2 : FitbitError)
    (h1 : (metaForError e1).isSome = true)
    (heq : metaForError e1 = metaForError e2) :
    e1 = e2 ∨
      (metaForError e1 = some 103 ∧
        (e1 = FitbitError.HTTPUnauthorized ∨ e1 = FitbitError.HTTPForbidden) ∧
        (e2 = FitbitError.HTTPUnauthorized ∨ e2 = FitbitError.HTTPForbidden)) := by
  cases e1 <;> cases e2 <;> simp_all [metaForError]

/-- Witness for C4 at the colliding pair. -/
theorem metaForError_amended_witness :
    FitbitError.HTTPUnauthorized = FitbitError.HTTPForbidden ∨
      (metaForError FitbitError.HTTPUnauthorized = some 103 ∧
        (FitbitError.HTTPUnauthorized = FitbitError.HTTPUnauthorized ∨
          FitbitError.HTTPUnauthorized = FitbitError.HTTPForbidden) ∧
        (FitbitError.HTTPForbidden = FitbitError.HTTPUnauthorized ∨
          FitbitError.HTTPForbidden = FitbitError.HTTPForbidden)) :=
  metaForError_amended FitbitError.HTTPUnauthorized FitbitError.HTTPForbidden
    rfl rfl

/-- C8: when the Fitbit API fails with `HTTPUnauthorized` or
`HTTPForbidden`, the view returns meta status 103 and deletes the
requesting user's stored `UserFitbit` credentials; when the requesting
session is not authenticated (meta 101), the stored credentials are left
unchanged. -/
theorem view_credentials_effects (userId : Nat) (paramsValid : Bool)
    (api : ApiResult) (db : List UserFitbit) (e : FitbitError)
    (he : e = FitbitError.HTTPUnauthorized ∨ e = FitbitError.HTTPForbidden)
    (hu : db.any (fun u => u.user == userId) = true)
    (hp : paramsValid = true) :
    ((fitbit_data_view true userId paramsValid (.err e) db).1.1 = 103 ∧
     (fitbit_data_view true userId paramsValid (.err e) db).2 =
       deleteUserFitbit db userId ∧
     ∀ u ∈ (fitbit_data_view true userId paramsValid (.err e) db).2,
       u.user ≠ userId) ∧
    ((fitbit_data_view false userId paramsValid api db).1.1 = 101 ∧
     (fitbit_data_view false userId paramsValid api db).2 = db) := by
  subst hp
  refine ⟨?_, by simp [fitbit_data_view], by simp [fitbit_data_view]⟩
  have hdel : ∀ u ∈ deleteUserFitbit db userId, u.user ≠ userId := by
    intro u hmem
    simp [deleteUserFitbit, List.mem_filter] at hmem
    exact hmem.2
  rcases he with rfl | rfl <;>
    exact ⟨by simp [fitbit_data_view, hu, metaForError],
      by simp [fitbit_data_view, hu, metaForError],
      by simpa [fitbit_data_view, hu, metaForError] using hdel⟩

/-- Witness for C8 at a concrete one-row credentials table. -/
theorem view_credentials_effects_witness :
    ((fitbit_data_view true 1 true (.err FitbitError.HTTPUnauthorized)
        [⟨1, "fb", "t", "s"⟩]).1.1 = 103 ∧
     (fitbit_data_view true 1 true (.err FitbitError.HTTPUnauthorized)
        [⟨1, "fb", "t", "s"⟩]).2 =
       deleteUserFitbit [⟨1, "fb", "t", "s"⟩] 1 ∧
     ∀ u ∈ (fitbit_data_view true 1 true (.err FitbitError.HTTPUnauthorized)
        [⟨1, "fb", "t", "s"⟩]).2, u.user ≠ 1) ∧
    ((fitbit_data_view false 1 true (.ok [10])
        [⟨1, "fb", "t", "s"⟩]).1.1 = 101 ∧
     (fitbit_data_view false 1 true (.ok [10])
        [⟨1, "fb", "t", "s"⟩]).2 = [⟨1, "fb", "t", "s"⟩]) :=
  view_credentials_effects 1 true (.ok [10]) [⟨1, "fb", "t", "s"⟩]
    FitbitError.HTTPUnauthorized (Or.inl rfl) (by decide) rfl

/-- C9: a GET request is always answered with HTTP status 200 — whatever
the authentication state, parameter validity or API outcome — with the
outcome carried in the body produced by the view; every other HTTP method
is answered with status 405 and no body. -/
theorem view_http_status (method : HttpMethod) (authenticatedActive : Bool)
    (userId : Nat) (paramsValid : Bool) (api : ApiResult)
    (db : List UserFitbit) (hm : method ≠ HttpMethod.GET) :
    (fitbit_data_dispatch HttpMethod.GET authenticatedActive userId
        paramsValid api db).1.1 = 200 ∧
    (fitbit_data_dispatch HttpMethod.GET authenticatedActive userId
        paramsValid api db).1.2 =
      some (fitbit_data_view authenticatedActive userId paramsValid api db).1 ∧
    (fitbit_data_dispatch method authenticatedActive userId paramsValid api
        db).1.1 = 405 ∧
    (fitbit_data_dispatch method authenticatedActive userId paramsValid api
        db).1.2 = none := by
  refine ⟨rfl, rfl, ?_, ?_⟩ <;>
    cases method <;> first | exact absurd rfl hm | rfl

/-- Witness for C9 at a concrete POST request. -/
theorem view_http_status_witness :
    (fitbit_data_dispatch HttpMethod.GET true 1 true (.ok [10])
        [⟨1, "fb", "t", "s"⟩]).1.1 = 200 ∧
    (fitbit_data_dispatch HttpMethod.GET true 1 true (.ok [10])
        [⟨1, "fb", "t", "s"⟩]).1.2 =
      some (fitbit_data_view true 1 true (.ok [10])
        [⟨1, "fb", "t", "s"⟩]).1 ∧
    (fitbit_data_dispatch HttpMethod.POST true 1 true (.ok [10])
        [⟨1, "fb", "t", "s"⟩]).1.1 = 405 ∧
    (fitbit_data_dispatch HttpMethod.POST true 1 true (.ok [10])
        [⟨1, "fb", "t", "s"⟩]).1.2 = none :=
  view_http_status HttpMethod.POST true 1 true (.ok [10])
    [⟨1, "fb", "t", "s"⟩] (by intro h; exact HttpMethod.noConfusion h)
